import Mathlib

/-
Shallow embedding of the FSM runtime in src/fsm/fsm.py.

The Python program is a class holding a dict from integer state ids to
records (entry-action callable plus an ordered transition list), a
current-state cursor, and a generator object created at construction.
We model:
  * Python values passed to the registration API as the inductive `Py`
    (integers, strings, None, zero-argument callables identified by the
    marker they emit, one-argument guard callables identified by a
    numeric id together with their predicate);
  * values fed to `send` as `Val := Option Int` (Python `None` is `none`);
  * the states dict as an insertion-ordered association list;
  * the generator as a status flag (`created` before the first `next`,
    `suspended` while parked at the `yield`, `closed` once an exception
    has propagated out of the generator frame): inspection of the source
    shows the local `exec_state_func` is always `False` at every
    suspension point, so the status plus the shared object fields fully
    determine the resumption behaviour;
  * side effects (entry-action and guard invocations) as an event trace.
-/

/-- Values fed to `send`: Python None is `none`, an int n is `some n`. -/
abbrev Val := Option Int

/-- Python values handed to the registration API. -/
inductive Py where
  | int : Int → Py
  | str : String → Py
  | pynone : Py
  | fn0 : String → Py
  | fn1 : Nat → (Val → Bool) → Py

/-- Python isinstance(x, int). -/
def Py.isInt : Py → Bool
  | .int _ => true
  | _ => false

/-- Python callable(x). -/
def Py.isCallable : Py → Bool
  | .fn0 _ => true
  | .fn1 _ _ => true
  | _ => false

/-- Extract the integer from a `Py.int`; only used under an `isInt` guard. -/
def Py.toInt : Py → Int
  | .int n => n
  | _ => 0

/-- One entry of a transition list: `{'destiny_state': ..., 'condition': ...}`. -/
structure Transition where
  destiny_state : Int
  condition : Py

/-- One value of the states dict: `{'func': ..., 'transitions': [...]}`. -/
structure StateRec where
  func : Py
  transitions : List Transition

/-- The Python exceptions this program can raise. -/
inductive Err where
  | stateDeclarationError : String → Err
  | transitionDeclarationError : String → Err
  | keyError : String → Err
  | typeError : String → Err
  | stopIteration : Err

deriving instance DecidableEq for Err

/-- Status of the generator object `self.task_gen`. -/
inductive GenStatus where
  | created
  | suspended
  | closed

deriving instance DecidableEq for GenStatus

/-- Observable events: an entry action ran (its marker), or a guard was
invoked (its id). -/
inductive Ev where
  | entry : String → Ev
  | guard : Nat → Ev

deriving instance DecidableEq for Ev

/-- The FSM object: states dict, current-state cursor, generator status. -/
structure FSM where
  states : List (Int × StateRec)
  current_state : Int
  gen : GenStatus

/-- `FSM.__init__`: empty dict, cursor 0, generator created but not run. -/
def FSM.init : FSM := ⟨[], 0, .created⟩

/-- Dict lookup `states[k]` on the association list. -/
def lookupState : List (Int × StateRec) → Int → Option StateRec
  | [], _ => none
  | (k, st) :: rest, k' => if k = k' then some st else lookupState rest k'

/-- Dict membership `k in states`. -/
def containsState (l : List (Int × StateRec)) (k : Int) : Bool :=
  (lookupState l k).isSome

/-- `states[k]['transitions'].append(t)`. -/
def appendTransition (l : List (Int × StateRec)) (k : Int) (t : Transition) :
    List (Int × StateRec) :=
  l.map fun p =>
    if p.1 = k then (p.1, ⟨p.2.func, p.2.transitions ++ [t]⟩) else p

/-- `del states[k]`. -/
def eraseState (l : List (Int × StateRec)) (k : Int) : List (Int × StateRec) :=
  l.filter fun p => p.1 ≠ k

def declStateMsg : String :=
  "Error on state declaration: state_id -> int, callback -> func"

def declTransMsg : String :=
  "Error on transition declaration: state_id -> int, callback -> func"

/-- `FSM.add_state` (fsm.py lines 76-96). -/
def FSM.add_state (m : FSM) (state_id callback : Py) : Except Err FSM :=
  if !state_id.isInt || !callback.isCallable then
    .error (.stateDeclarationError declStateMsg)
  else if containsState m.states state_id.toInt then
    .error (.stateDeclarationError
      ("State " ++ toString state_id.toInt ++ " already exists!"))
  else
    .ok { m with
      states := m.states ++ [(state_id.toInt, ⟨callback, []⟩)] }

/-- `FSM.del_state` (fsm.py lines 98-105): `del self.states[state_id]`,
a KeyError when the key is absent. -/
def FSM.del_state (m : FSM) (state_id : Int) : Except Err FSM :=
  if containsState m.states state_id then
    .ok { m with states := eraseState m.states state_id }
  else
    .error (.keyError (toString state_id))

/-- `FSM.add_transition` (fsm.py lines 107-129). Note the source raises
StateDeclarationError, not TransitionDeclarationError, on the type check. -/
def FSM.add_transition (m : FSM) (origin_state destiny_state callback : Py) :
    Except Err FSM :=
  if !origin_state.isInt || !destiny_state.isInt || !callback.isCallable then
    .error (.stateDeclarationError declTransMsg)
  else if !containsState m.states origin_state.toInt then
    .error (.keyError
      ("State " ++ toString origin_state.toInt ++ " not found. Add state first!"))
  else
    .ok { m with
      states := appendTransition m.states origin_state.toInt
        ⟨destiny_state.toInt, callback⟩ }

/-- Result of resuming the generator: the outcome of the `next`/`send`
call, the FSM object afterwards, and the events emitted meanwhile. -/
structure RunOut where
  result : Except Err Unit
  fsm : FSM
  trace : List Ev

/-- Call `self.states[self.current_state]['func']()`: a zero-argument call.
Calling a one-argument callable with no argument is a Python TypeError. -/
def callAction : Py → List Ev × Except Err Unit
  | .fn0 marker => ([.entry marker], .ok ())
  | .fn1 _ _ => ([], .error (.typeError "missing 1 required positional argument"))
  | _ => ([], .error (.typeError "object is not callable"))

/-- The `for transition in ...` loop of `task`: invoke each condition with
the sent value, in list order, stopping at the first truthy one. Returns
the guard-invocation events and the matching transition, if any. -/
def firstMatch (v : Val) : List Transition → List Ev × Except Err (Option Transition)
  | [] => ([], .ok none)
  | t :: rest =>
    match t.condition with
    | .fn1 gid g =>
      if g v then ([.guard gid], .ok (some t))
      else
        let r := firstMatch v rest
        (.guard gid :: r.1, r.2)
    | _ => ([], .error (.typeError "object is not callable"))

/-- Outcome of the entry-action call: success suspends at the `yield`, an
exception escapes the frame and closes the generator. -/
def enterCall (m : FSM) : List Ev × Except Err Unit → RunOut
  | (evs, .ok _) => ⟨.ok (), { m with gen := .suspended }, evs⟩
  | (evs, .error e) => ⟨.error e, { m with gen := .closed }, evs⟩

/-- Outcome of the dict access `self.states[self.current_state]`: a missing
key is a KeyError that escapes the frame and closes the generator. -/
def enterAux (m : FSM) : Option StateRec → RunOut
  | none => ⟨.error (.keyError (toString m.current_state)), { m with gen := .closed }, []⟩
  | some st => enterCall m (callAction st.func)

/-- The top of the `while True` loop with `exec_state_func == True`: look up
the current state in the dict (KeyError closes the generator), run its entry
action, then suspend at the `yield`. -/
def enterBlock (m : FSM) : RunOut :=
  enterAux m (lookupState m.states m.current_state)

/-- First activation of the generator body `task` (fsm.py lines 146-161):
sets `self.current_state = 0` and `exec_state_func = True`, runs the entry
block, and suspends. -/
def genStart (m : FSM) : RunOut :=
  enterBlock { m with current_state := 0 }

/-- Outcome of the transition loop: an escaping exception closes the
generator; no match suspends again with nothing changed; a match moves the
cursor to the destination and re-runs the entry block there. -/
def resumeMatch (m : FSM) : List Ev × Except Err (Option Transition) → RunOut
  | (evs, .error e) => ⟨.error e, { m with gen := .closed }, evs⟩
  | (evs, .ok none) => ⟨.ok (), { m with gen := .suspended }, evs⟩
  | (evs, .ok (some t)) =>
    let r := enterBlock { m with current_state := t.destiny_state }
    ⟨r.result, r.fsm, evs ++ r.trace⟩

/-- Outcome of the dict access for the transition list of the current
state: a missing key is a KeyError that closes the generator. -/
def resumeAux (m : FSM) (v : Val) : Option StateRec → RunOut
  | none => ⟨.error (.keyError (toString m.current_state)), { m with gen := .closed }, []⟩
  | some st => resumeMatch m (firstMatch v st.transitions)

/-- Resuming the suspended generator with value `v`: the `yield` returns v,
the transition loop of the current state runs, and on a match the cursor
moves to the destination BEFORE the entry block looks it up. Any exception
escaping the frame closes the generator. -/
def genResume (m : FSM) (v : Val) : RunOut :=
  resumeAux m v (lookupState m.states m.current_state)

/-- `FSM.start` (fsm.py lines 131-135): `next(self.task_gen)`. On a
suspended generator this resumes the frame with value None; on a closed
generator it raises StopIteration. -/
def FSM.start (m : FSM) : RunOut :=
  match m.gen with
  | .created => genStart m
  | .suspended => genResume m none
  | .closed => ⟨.error .stopIteration, m, []⟩

/-- `FSM.send` (fsm.py lines 137-144): `self.task_gen.send(value)`. On a
just-created generator, sending None is equivalent to `next` and starts the
frame, while sending any other value raises TypeError and leaves the
generator unstarted; on a closed generator it raises StopIteration. -/
def FSM.send (m : FSM) (v : Val) : RunOut :=
  match m.gen with
  | .created =>
    match v with
    | none => genStart m
    | some _ =>
      ⟨.error (.typeError "cant send non-None value to a just-started generator"), m, []⟩
  | .suspended => genResume m v
  | .closed => ⟨.error .stopIteration, m, []⟩

/-- A call of the public API, for whole-script scenarios. -/
inductive Cmd where
  | add_state : Py → Py → Cmd
  | del_state : Int → Cmd
  | add_transition : Py → Py → Py → Cmd
  | start : Cmd
  | send : Val → Cmd

/-- Run one API call on the object. -/
def runCmd (m : FSM) : Cmd → RunOut
  | .add_state a b =>
    match m.add_state a b with
    | .ok m2 => ⟨.ok (), m2, []⟩
    | .error e => ⟨.error e, m, []⟩
  | .del_state k =>
    match m.del_state k with
    | .ok m2 => ⟨.ok (), m2, []⟩
    | .error e => ⟨.error e, m, []⟩
  | .add_transition a b c =>
    match m.add_transition a b c with
    | .ok m2 => ⟨.ok (), m2, []⟩
    | .error e => ⟨.error e, m, []⟩
  | .start => m.start
  | .send v => m.send v

/-- Final state of a straight-line script: the object, the full event
trace, and the first uncaught exception, if any (it stops the script). -/
structure Outcome where
  fsm : FSM
  trace : List Ev
  err : Option Err

/-- Run a list of API calls, stopping at the first uncaught exception. -/
def runProgram (m : FSM) : List Cmd → Outcome
  | [] => ⟨m, [], none⟩
  | c :: cs =>
    match runCmd m c with
    | ⟨.ok _, m2, evs⟩ =>
      let o := runProgram m2 cs
      ⟨o.fsm, evs ++ o.trace, o.err⟩
    | ⟨.error e, m2, evs⟩ => ⟨m2, evs, some e⟩

/-- Markers of the entry actions that ran, in order. -/
def entryEvents : List Ev → List String
  | [] => []
  | .entry s :: rest => s :: entryEvents rest
  | .guard _ :: rest => entryEvents rest

/-- Ids of the guards that were invoked, in order. -/
def guardEvents : List Ev → List Nat
  | [] => []
  | .guard g :: rest => g :: guardEvents rest
  | .entry _ :: rest => guardEvents rest

/-- The condition is a one-argument callable rejecting `v`. -/
def guardRejects (p : Py) (v : Val) : Bool :=
  match p with
  | .fn1 _ g => !(g v)
  | _ => false

/-- The condition is a one-argument callable accepting `v`. -/
def guardAccepts (p : Py) (v : Val) : Bool :=
  match p with
  | .fn1 _ g => g v
  | _ => false

/-- Guard id of a condition (0 for non-guards; only used on guards). -/
def condGid (p : Py) : Nat :=
  match p with
  | .fn1 gid _ => gid
  | _ => 0

/-- Guard with id 1 accepting every value. -/
def gTrue : Py := .fn1 1 (fun _ => true)

/-- Guard with id 11 firing exactly on the integer 2. -/
def gEq2 : Py := .fn1 11 (fun v => v == some 2)

/-- Guard with id 12 firing exactly on the integer 3. -/
def gEq3 : Py := .fn1 12 (fun v => v == some 3)

/-- Guard with id 13 firing exactly on the integer 0. -/
def gEq0 : Py := .fn1 13 (fun v => v == some 0)

/-- The three-state demo script of the spec scenario: states 0, 1, 2 with
markers A, B, C; transitions 0 to 1 on input 2, 1 to 2 on input 3, 2 to 0
on input 0; then start and the four sends. -/
def progDemo : List Cmd :=
  [ .add_state (.int 0) (.fn0 "A")
  , .add_state (.int 1) (.fn0 "B")
  , .add_state (.int 2) (.fn0 "C")
  , .add_transition (.int 0) (.int 1) gEq2
  , .add_transition (.int 1) (.int 2) gEq3
  , .add_transition (.int 2) (.int 0) gEq0
  , .start
  , .send (some 2)
  , .send (some 3)
  , .send (some 0)
  , .send (some 3) ]

/-- Build script for the dangling-destination scenario: only state 0 is
registered, with a transition to the unregistered state 5 whose guard
always fires, and the machine is started. -/
def progDangling : List Cmd :=
  [ .add_state (.int 0) (.fn0 "A")
  , .add_transition (.int 0) (.int 5) gTrue
  , .start ]

/-- The started machine of the dangling-destination scenario. -/
def danglingFSM : FSM := (runProgram FSM.init progDangling).fsm

/-- The program of the dangling-destination counterexample scenario: the
build script followed by a send whose guard fires toward state 5. -/
def progC1 : List Cmd := progDangling ++ [.send (some 1)]

/-- A send-before-start script: state 0 is registered, the machine is
never started, and `send(None)` is issued. -/
def progC8 : List Cmd :=
  [ .add_state (.int 0) (.fn0 "A")
  , .send none ]

/-- Transition with an always-false guard (id 101). -/
def tG1 : Transition := ⟨1, .fn1 101 (fun _ => false)⟩

/-- Transition with an always-true guard (id 102). -/
def tG2 : Transition := ⟨2, .fn1 102 (fun _ => true)⟩

/-- Transition with an always-true guard (id 103), after tG2. -/
def tG3 : Transition := ⟨3, .fn1 103 (fun _ => true)⟩

/-- Started machine whose state 0 has the guards G1 (false), G2 (true),
G3 (true) in registration order. -/
def mC3 : FSM :=
  ⟨[ (0, ⟨.fn0 "A", [tG1, tG2, tG3]⟩)
   , (1, ⟨.fn0 "B", []⟩)
   , (2, ⟨.fn0 "C", []⟩)
   , (3, ⟨.fn0 "D", []⟩) ], 0, .suspended⟩

/-- Started machine whose only transition out of state 0 always rejects. -/
def mC4 : FSM := ⟨[(0, ⟨.fn0 "A", [tG1]⟩)], 0, .suspended⟩

/-- Self-loop transition on state 0 with an always-true guard (id 55). -/
def tSelf : Transition := ⟨0, .fn1 55 (fun _ => true)⟩

/-- Started machine whose state 0 re-enters itself on every input. -/
def mC5 : FSM := ⟨[(0, ⟨.fn0 "A", [tSelf]⟩)], 0, .suspended⟩

/-- Fresh machine with state 0 registered and nothing else. -/
def m0reg : FSM := ⟨[(0, ⟨.fn0 "A", []⟩)], 0, .created⟩

/-- Started machine with state 0 registered, no transitions yet. -/
def mC7 : FSM := ⟨[(0, ⟨.fn0 "A", []⟩)], 0, .suspended⟩

/-- The dangling-destination machine after the crash and after state 5 is
finally registered: the dict now holds 0 and 5, the cursor points at 5,
and the generator is already closed. -/
def mAfterC10 : FSM :=
  ⟨[(0, ⟨.fn0 "A", [⟨5, gTrue⟩]⟩), (5, ⟨.fn0 "Z", []⟩)], 5, .closed⟩


lemma lookupState_cons (a : Int) (s : StateRec) (rest : List (Int × StateRec)) (k : Int) :
    lookupState ((a, s) :: rest) k = if a = k then some s else lookupState rest k := rfl

lemma appendTransition_cons (a : Int) (s : StateRec) (rest : List (Int × StateRec))
    (k : Int) (t : Transition) :
    appendTransition ((a, s) :: rest) k t =
      (if a = k then (a, ⟨s.func, s.transitions ++ [t]⟩) else (a, s))
        :: appendTransition rest k t := rfl

lemma lookupState_append_of_some {l1 : List (Int × StateRec)} {k : Int} {st : StateRec}
    (l2 : List (Int × StateRec)) (h : lookupState l1 k = some st) :
    lookupState (l1 ++ l2) k = some st := by
  induction l1 with
  | nil => exact absurd h (by simp [lookupState])
  | cons p rest ih =>
    obtain ⟨a, s⟩ := p
    rw [lookupState_cons] at h
    rw [List.cons_append, lookupState_cons]
    by_cases hak : a = k
    · rwa [if_pos hak] at h ⊢
    · rw [if_neg hak] at h ⊢
      exact ih h

lemma lookupState_append_of_none {l1 : List (Int × StateRec)} {k : Int}
    (l2 : List (Int × StateRec)) (h : lookupState l1 k = none) :
    lookupState (l1 ++ l2) k = lookupState l2 k := by
  induction l1 with
  | nil => rfl
  | cons p rest ih =>
    obtain ⟨a, s⟩ := p
    rw [lookupState_cons] at h
    rw [List.cons_append, lookupState_cons]
    by_cases hak : a = k
    · rw [if_pos hak] at h
      exact absurd h (by simp)
    · rw [if_neg hak] at h
      rw [if_neg hak]
      exact ih h

lemma lookupState_appendTransition_self {l : List (Int × StateRec)} {k : Int} {st : StateRec}
    (t : Transition) (h : lookupState l k = some st) :
    lookupState (appendTransition l k t) k = some ⟨st.func, st.transitions ++ [t]⟩ := by
  induction l with
  | nil => exact absurd h (by simp [lookupState])
  | cons p rest ih =>
    obtain ⟨a, s⟩ := p
    rw [lookupState_cons] at h
    rw [appendTransition_cons]
    by_cases hak : a = k
    · rw [if_pos hak] at h
      rw [if_pos hak, lookupState_cons, if_pos hak]
      rw [Option.some_inj] at h
      rw [h]
    · rw [if_neg hak] at h
      rw [if_neg hak, lookupState_cons, if_neg hak]
      exact ih h

lemma lookupState_appendTransition_other {l : List (Int × StateRec)} {k k' : Int}
    (t : Transition) (h : k' ≠ k) :
    lookupState (appendTransition l k t) k' = lookupState l k' := by
  induction l with
  | nil => rfl
  | cons p rest ih =>
    obtain ⟨a, s⟩ := p
    rw [appendTransition_cons, lookupState_cons]
    by_cases hak : a = k
    · rw [if_pos hak, lookupState_cons]
      have hak' : ¬ a = k' := fun hh => h (hh ▸ hak ▸ rfl)
      rw [if_neg hak', if_neg hak']
      exact ih
    · rw [if_neg hak, lookupState_cons]
      by_cases hak' : a = k'
      · rw [if_pos hak', if_pos hak']
      · rw [if_neg hak', if_neg hak']
        exact ih

lemma lookupState_appendTransition_none {l : List (Int × StateRec)} {k k' : Int}
    (t : Transition) (h : lookupState l k' = none) :
    lookupState (appendTransition l k t) k' = none := by
  induction l with
  | nil => rfl
  | cons p rest ih =>
    obtain ⟨a, s⟩ := p
    rw [lookupState_cons] at h
    rw [appendTransition_cons]
    by_cases hak' : a = k'
    · rw [if_pos hak'] at h
      exact absurd h (by simp)
    · rw [if_neg hak'] at h
      by_cases hak : a = k
      · rw [if_pos hak, lookupState_cons, if_neg hak']
        exact ih h
      · rw [if_neg hak, lookupState_cons, if_neg hak']
        exact ih h

lemma containsState_appendTransition (l : List (Int × StateRec)) (k k' : Int)
    (t : Transition) :
    containsState (appendTransition l k t) k' = containsState l k' := by
  by_cases hk : k' = k
  · subst hk
    cases h : lookupState l k' with
    | none =>
      unfold containsState
      rw [lookupState_appendTransition_none t h, h]
    | some st =>
      unfold containsState
      rw [lookupState_appendTransition_self t h, h]
      rfl
  · unfold containsState
    rw [lookupState_appendTransition_other t hk]

lemma entryEvents_append (a b : List Ev) :
    entryEvents (a ++ b) = entryEvents a ++ entryEvents b := by
  induction a with
  | nil => rfl
  | cons e rest ih =>
    cases e with
    | entry s => simp [entryEvents, ih]
    | guard g => simp [entryEvents, ih]

lemma guardEvents_append (a b : List Ev) :
    guardEvents (a ++ b) = guardEvents a ++ guardEvents b := by
  induction a with
  | nil => rfl
  | cons e rest ih =>
    cases e with
    | entry s => simp [guardEvents, ih]
    | guard g => simp [guardEvents, ih]

lemma guardEvents_map_guard (l : List Transition) (f : Transition → Nat) :
    guardEvents (l.map fun t => Ev.guard (f t)) = l.map f := by
  induction l with
  | nil => rfl
  | cons t rest ih => simp [guardEvents, ih]

lemma entryEvents_map_guard (l : List Transition) (f : Transition → Nat) :
    entryEvents (l.map fun t => Ev.guard (f t)) = [] := by
  induction l with
  | nil => rfl
  | cons t rest ih => simp [entryEvents, ih]


/-- A rejecting condition is a one-argument callable whose predicate
returns false on the value. -/
lemma guardRejects_elim (p : Py) (v : Val) (h : guardRejects p v = true) :
    ∃ gid g, p = Py.fn1 gid g ∧ g v = false := by
  cases p with
  | fn1 gid g =>
    refine ⟨gid, g, rfl, ?_⟩
    have hb : (!(g v)) = true := h
    cases hg : g v with
    | false => rfl
    | true => rw [hg] at hb; exact absurd hb (by decide)
  | int n => exact Bool.noConfusion h
  | str s => exact Bool.noConfusion h
  | pynone => exact Bool.noConfusion h
  | fn0 s => exact Bool.noConfusion h

/-- An accepting condition is a one-argument callable whose predicate
returns true on the value. -/
lemma guardAccepts_elim (p : Py) (v : Val) (h : guardAccepts p v = true) :
    ∃ gid g, p = Py.fn1 gid g ∧ g v = true := by
  cases p with
  | fn1 gid g => exact ⟨gid, g, rfl, h⟩
  | int n => exact Bool.noConfusion h
  | str s => exact Bool.noConfusion h
  | pynone => exact Bool.noConfusion h
  | fn0 s => exact Bool.noConfusion h

lemma firstMatch_cons_true (v : Val) (rest : List Transition) (d : Int)
    (gid : Nat) (g : Val → Bool) (hg : g v = true) :
    firstMatch v (⟨d, .fn1 gid g⟩ :: rest) = ([.guard gid], .ok (some ⟨d, .fn1 gid g⟩)) := by
  simp only [firstMatch, hg]
  rfl

lemma firstMatch_cons_false (v : Val) (rest : List Transition) (d : Int)
    (gid : Nat) (g : Val → Bool) (hg : g v = false) :
    firstMatch v (⟨d, .fn1 gid g⟩ :: rest) =
      (Ev.guard gid :: (firstMatch v rest).1, (firstMatch v rest).2) := by
  simp only [firstMatch, hg]
  rfl

/-- All guard invocations of the transition loop reject: the loop returns
no match, having invoked every guard in list order. -/
lemma firstMatch_rejects (v : Val) (ts : List Transition)
    (h : ∀ t ∈ ts, guardRejects t.condition v = true) :
    firstMatch v ts = (ts.map fun t => Ev.guard (condGid t.condition), .ok none) := by
  induction ts with
  | nil => rfl
  | cons t rest ih =>
    obtain ⟨d, c⟩ := t
    obtain ⟨gid, g, hc, hg⟩ := guardRejects_elim c v (h _ (List.mem_cons_self _ rest))
    subst hc
    rw [firstMatch_cons_false v rest d gid g hg,
        ih (fun t' ht' => h t' (List.mem_cons_of_mem _ ht'))]
    rfl

/-- The transition loop on a list whose prefix rejects and whose next
element accepts: it stops at that element, having invoked exactly the
prefix guards and then the matching guard, in order. -/
lemma firstMatch_split (v : Val) (ts1 ts2 : List Transition) (t : Transition)
    (h1 : ∀ t' ∈ ts1, guardRejects t'.condition v = true)
    (h2 : guardAccepts t.condition v = true) :
    firstMatch v (ts1 ++ t :: ts2) =
      ((ts1.map fun t' => Ev.guard (condGid t'.condition))
        ++ [Ev.guard (condGid t.condition)], .ok (some t)) := by
  induction ts1 with
  | nil =>
    obtain ⟨d, c⟩ := t
    obtain ⟨gid, g, hc, hg⟩ := guardAccepts_elim c v h2
    subst hc
    rw [List.nil_append, firstMatch_cons_true v ts2 d gid g hg]
    rfl
  | cons t1 rest ih =>
    obtain ⟨d1, c1⟩ := t1
    obtain ⟨gid1, g1, hc1, hg1⟩ := guardRejects_elim c1 v (h1 _ (List.mem_cons_self _ rest))
    subst hc1
    rw [List.cons_append, firstMatch_cons_false v _ d1 gid1 g1 hg1,
        ih (fun t' ht' => h1 t' (List.mem_cons_of_mem _ ht'))]
    rfl

/-- The transition loop emits only guard events. -/
lemma entryEvents_firstMatch (v : Val) (ts : List Transition) :
    entryEvents (firstMatch v ts).1 = [] := by
  induction ts with
  | nil => rfl
  | cons t rest ih =>
    obtain ⟨d, c⟩ := t
    cases c with
    | fn1 gid g =>
      cases hg : g v with
      | true =>
        rw [firstMatch_cons_true v rest d gid g hg]
        rfl
      | false =>
        rw [firstMatch_cons_false v rest d gid g hg]
        simpa [entryEvents] using ih
    | int n => rfl
    | str s => rfl
    | pynone => rfl
    | fn0 s => rfl

/-- The entry block never moves the cursor and never touches the dict. -/
lemma enterBlock_fields (m : FSM) :
    (enterBlock m).fsm.current_state = m.current_state ∧
    (enterBlock m).fsm.states = m.states := by
  unfold enterBlock
  cases lookupState m.states m.current_state with
  | none => exact ⟨rfl, rfl⟩
  | some st =>
    simp only [enterAux]
    cases callAction st.func with
    | mk evs r =>
      cases r with
      | ok u => exact ⟨rfl, rfl⟩
      | error e => exact ⟨rfl, rfl⟩

/-- The entry block emits no guard events. -/
lemma guardEvents_enterBlock (m : FSM) :
    guardEvents (enterBlock m).trace = [] := by
  unfold enterBlock
  cases lookupState m.states m.current_state with
  | none => rfl
  | some st =>
    simp only [enterAux]
    cases st.func with
    | fn0 marker => rfl
    | fn1 gid g => rfl
    | int n => rfl
    | str s => rfl
    | pynone => rfl

/-- The entry block, when the cursor points at a registered state whose
entry action is a zero-argument callable: it runs the action and suspends. -/
lemma enterBlock_found (m : FSM) (st : StateRec) (marker : String)
    (h : lookupState m.states m.current_state = some st)
    (hf : st.func = .fn0 marker) :
    enterBlock m = ⟨.ok (), { m with gen := .suspended }, [.entry marker]⟩ := by
  unfold enterBlock
  rw [h]
  simp only [enterAux]
  rw [hf]
  rfl

/-- The entry block, when the cursor points at an unregistered identifier:
KeyError on the dict access, the generator frame dies. -/
lemma enterBlock_missing (m : FSM)
    (h : lookupState m.states m.current_state = none) :
    enterBlock m =
      ⟨.error (.keyError (toString m.current_state)), { m with gen := .closed }, []⟩ := by
  unfold enterBlock
  rw [h]
  rfl

/-- If the entry block fails, the generator is closed. -/
lemma enterBlock_error_closed (m : FSM) (e : Err)
    (h : (enterBlock m).result = .error e) :
    (enterBlock m).fsm.gen = .closed := by
  unfold enterBlock at h ⊢
  cases hl : lookupState m.states m.current_state with
  | none => rfl
  | some st =>
    rw [hl] at h
    simp only [enterAux] at h ⊢
    cases hca : callAction st.func with
    | mk evs r =>
      rw [hca] at h
      cases r with
      | ok u => simp [enterCall] at h
      | error e2 => rfl

/-- `send` on a suspended machine resumes the generator. -/
lemma send_suspended (m : FSM) (v : Val) (h : m.gen = .suspended) :
    m.send v = genResume m v := by
  unfold FSM.send
  rw [h]

/-- `send` on a closed generator raises StopIteration and changes nothing. -/
lemma send_closed (m : FSM) (v : Val) (h : m.gen = .closed) :
    m.send v = ⟨.error .stopIteration, m, []⟩ := by
  unfold FSM.send
  rw [h]

/-- `start` on a closed generator raises StopIteration and changes nothing. -/
lemma start_closed (m : FSM) (h : m.gen = .closed) :
    m.start = ⟨.error .stopIteration, m, []⟩ := by
  unfold FSM.start
  rw [h]

/-- A successful `add_state` does not touch the cursor or the generator. -/
lemma add_state_ok_fields (m m2 : FSM) (a b : Py)
    (h : m.add_state a b = .ok m2) :
    m2.current_state = m.current_state ∧ m2.gen = m.gen := by
  unfold FSM.add_state at h
  by_cases h1 : (!a.isInt || !b.isCallable) = true
  · rw [if_pos h1] at h
    exact absurd h (by simp)
  · rw [if_neg h1] at h
    by_cases h2 : containsState m.states a.toInt = true
    · rw [if_pos h2] at h
      exact absurd h (by simp)
    · rw [if_neg h2] at h
      have := Except.ok.inj h
      rw [← this]
      exact ⟨rfl, rfl⟩

/-- A `send` that escapes with an exception from a suspended generator
leaves the generator closed. -/
lemma send_error_closed (m : FSM) (v : Val) (e : Err)
    (hgen : m.gen = .suspended)
    (h : (m.send v).result = .error e) :
    (m.send v).fsm.gen = .closed := by
  rw [send_suspended m v hgen] at h ⊢
  unfold genResume at h ⊢
  cases hl : lookupState m.states m.current_state with
  | none => rfl
  | some st =>
    rw [hl] at h
    simp only [resumeAux] at h ⊢
    cases hfm : firstMatch v st.transitions with
    | mk evs r =>
      rw [hfm] at h
      cases r with
      | error e2 => rfl
      | ok o =>
        cases o with
        | none => simp [resumeMatch] at h
        | some t =>
          simp only [resumeMatch] at h ⊢
          exact enterBlock_error_closed _ e h

/-- `send` on a suspended machine whose current state is registered runs
the transition loop of that state and acts on its result. -/
lemma send_resume_found (m : FSM) (v : Val) (st : StateRec)
    (hgen : m.gen = .suspended)
    (hcur : lookupState m.states m.current_state = some st) :
    m.send v = resumeMatch m (firstMatch v st.transitions) := by
  rw [send_suspended m v hgen]
  unfold genResume
  rw [hcur]
  rfl

lemma resumeMatch_matched (m : FSM) (evs : List Ev) (t : Transition) :
    resumeMatch m (evs, .ok (some t)) =
      ⟨(enterBlock { m with current_state := t.destiny_state }).result,
       (enterBlock { m with current_state := t.destiny_state }).fsm,
       evs ++ (enterBlock { m with current_state := t.destiny_state }).trace⟩ := rfl

lemma resumeMatch_nomatch (m : FSM) (evs : List Ev) :
    resumeMatch m (evs, .ok none) = ⟨.ok (), { m with gen := .suspended }, evs⟩ := rfl

/-- Claim C3: on a started machine, `send` evaluates the current state's
transition guards in registration order and stops at the first one that
returns truthy: the cursor becomes that transition's destination, and the
guards invoked are exactly the rejecting prefix followed by the matching
guard — no guard registered after the match is ever invoked. -/
theorem send_first_match_wins (m : FSM) (v : Val) (st : StateRec)
    (ts1 ts2 : List Transition) (t : Transition)
    (hgen : m.gen = .suspended)
    (hcur : lookupState m.states m.current_state = some st)
    (hsplit : st.transitions = ts1 ++ t :: ts2)
    (hrej : ∀ t2 ∈ ts1, guardRejects t2.condition v = true)
    (hacc : guardAccepts t.condition v = true) :
    (m.send v).fsm.current_state = t.destiny_state ∧
    guardEvents (m.send v).trace =
      (ts1.map fun t2 => condGid t2.condition) ++ [condGid t.condition] := by
  rw [send_resume_found m v st hgen hcur, hsplit,
      firstMatch_split v ts1 ts2 t hrej hacc, resumeMatch_matched]
  constructor
  · exact (enterBlock_fields _).1
  · show guardEvents
      ((ts1.map fun t2 => Ev.guard (condGid t2.condition))
        ++ [Ev.guard (condGid t.condition)]
        ++ (enterBlock { m with current_state := t.destiny_state }).trace) = _
    rw [guardEvents_append, guardEvents_append, guardEvents_enterBlock,
        guardEvents_map_guard]
    simp [guardEvents]

/-- Claim C4: on a started machine, an input matched by no guard of the
current state is a silent no-op: `send` returns normally, the cursor and
the registry are unchanged, the machine stays suspended, and no entry
action runs. -/
theorem send_no_match_noop (m : FSM) (v : Val) (st : StateRec)
    (hgen : m.gen = .suspended)
    (hcur : lookupState m.states m.current_state = some st)
    (hrej : ∀ t ∈ st.transitions, guardRejects t.condition v = true) :
    (m.send v).result = .ok () ∧
    (m.send v).fsm.current_state = m.current_state ∧
    (m.send v).fsm.states = m.states ∧
    (m.send v).fsm.gen = .suspended ∧
    entryEvents (m.send v).trace = [] := by
  rw [send_resume_found m v st hgen hcur, firstMatch_rejects v st.transitions hrej,
      resumeMatch_nomatch]
  exact ⟨rfl, rfl, rfl, rfl, entryEvents_map_guard st.transitions _⟩

/-- Claim C5: each time a started machine enters a state through a fired
transition (self-re-entry included), that state's entry action runs
exactly once before `send` returns. -/
theorem send_entry_action_fires_once (m : FSM) (v : Val) (st st2 : StateRec)
    (evs : List Ev) (t : Transition) (marker : String)
    (hgen : m.gen = .suspended)
    (hcur : lookupState m.states m.current_state = some st)
    (hfm : firstMatch v st.transitions = (evs, .ok (some t)))
    (hdest : lookupState m.states t.destiny_state = some st2)
    (hfunc : st2.func = .fn0 marker) :
    (m.send v).result = .ok () ∧
    (m.send v).fsm.current_state = t.destiny_state ∧
    (m.send v).fsm.gen = .suspended ∧
    entryEvents (m.send v).trace = [marker] := by
  rw [send_resume_found m v st hgen hcur, hfm, resumeMatch_matched]
  have heb := enterBlock_found { m with current_state := t.destiny_state } st2 marker
    hdest hfunc
  rw [heb]
  refine ⟨rfl, rfl, rfl, ?_⟩
  show entryEvents (evs ++ [Ev.entry marker]) = [marker]
  rw [entryEvents_append]
  have h1 : entryEvents evs = [] := by
    have h2 := entryEvents_firstMatch v st.transitions
    rw [hfm] at h2
    exact h2
  rw [h1]
  rfl

/-- A key that is not in the dict has no entry. -/
lemma lookup_eq_none_of_not_contains (l : List (Int × StateRec)) (k : Int)
    (h : containsState l k = false) : lookupState l k = none := by
  cases hl : lookupState l k with
  | none => rfl
  | some st =>
    unfold containsState at h
    rw [hl] at h
    exact Bool.noConfusion h

/-- Claim C1, counterexample: with only state 0 registered, a transition
0 to 5 whose guard fires, and the machine started, the send raises the
not-found KeyError for 5 but the cursor is left at 5, not at 0. -/
theorem c1_counterexample :
    (runProgram FSM.init progC1).err = some (.keyError "5") ∧
    (runProgram FSM.init progC1).fsm.current_state = 5 ∧
    ¬ (runProgram FSM.init progC1).fsm.current_state = 0 :=
  ⟨rfl, rfl, by decide⟩

/-- Claim C1, amended: on a started machine, when the fired transition
points at an unregistered destination, `send` raises the not-found
KeyError for that destination, but the current-state identifier IS
updated to the dangling destination before the failure, and the
generator terminates. -/
theorem send_dangling_destination (m : FSM) (v : Val) (st : StateRec)
    (evs : List Ev) (t : Transition)
    (hgen : m.gen = .suspended)
    (hcur : lookupState m.states m.current_state = some st)
    (hfm : firstMatch v st.transitions = (evs, .ok (some t)))
    (hdest : lookupState m.states t.destiny_state = none) :
    (m.send v).result = .error (.keyError (toString t.destiny_state)) ∧
    (m.send v).fsm.current_state = t.destiny_state ∧
    (m.send v).fsm.gen = .closed := by
  rw [send_resume_found m v st hgen hcur, hfm, resumeMatch_matched]
  have heb := enterBlock_missing { m with current_state := t.destiny_state } hdest
  rw [heb]
  exact ⟨rfl, rfl, rfl⟩

/-- Claim C1, witness for the amended statement, on the concrete
dangling-destination machine. -/
theorem send_dangling_destination_witness :
    (danglingFSM.send (some 1)).result = .error (.keyError "5") ∧
    (danglingFSM.send (some 1)).fsm.current_state = 5 ∧
    (danglingFSM.send (some 1)).fsm.gen = .closed :=
  send_dangling_destination danglingFSM (some 1) ⟨.fn0 "A", [⟨5, gTrue⟩]⟩
    [.guard 1] ⟨5, gTrue⟩ rfl rfl rfl rfl

/-- Claim C2: `add_transition` with a non-callable guard, or with a
non-integer identifier, raises StateDeclarationError (the message speaks
of transition declaration, and the TransitionDeclarationError class of
the source is never raised); the error is raised before anything is
appended. -/
theorem add_transition_bad_args_error_kind :
    m0reg.add_transition (.int 0) (.int 1) (.str "nope") =
      .error (.stateDeclarationError declTransMsg) ∧
    m0reg.add_transition (.str "x") (.int 1) gTrue =
      .error (.stateDeclarationError declTransMsg) ∧
    m0reg.add_transition (.int 0) (.pynone) gTrue =
      .error (.stateDeclarationError declTransMsg) :=
  ⟨rfl, rfl, rfl⟩

/-- Claim C6: registering a state whose identifier is already in the
registry fails with StateDeclarationError, whatever the callback; the
error is raised before the dict assignment, so nothing is overwritten. -/
theorem add_state_duplicate_rejected (m : FSM) (n : Int) (cb : Py)
    (hdup : containsState m.states n = true) :
    ∃ msg, m.add_state (.int n) cb = .error (.stateDeclarationError msg) := by
  unfold FSM.add_state
  simp only [Py.isInt, Py.toInt]
  by_cases hcb : cb.isCallable = true
  · rw [hcb]
    refine ⟨"State " ++ toString n ++ " already exists!", ?_⟩
    rw [if_neg (by decide), if_pos hdup]
  · have hcb2 : cb.isCallable = false := by
      cases hc2 : cb.isCallable
      · rfl
      · exact absurd hc2 hcb
    rw [hcb2]
    exact ⟨declStateMsg, by rw [if_pos (by decide)]⟩

/-- Claim C6, witness: re-registering identifier 0 on a machine that
already holds state 0. -/
theorem add_state_duplicate_rejected_witness :
    ∃ msg, m0reg.add_state (.int 0) (.fn0 "B") = .error (.stateDeclarationError msg) :=
  add_state_duplicate_rejected m0reg 0 (.fn0 "B") rfl

/-- Claim C8, counterexample: on a machine that was never started,
`send(None)` does not fail — it starts the generator frame, running the
entry action of state 0 and leaving the machine suspended. -/
theorem c8_counterexample :
    (runProgram FSM.init progC8).err = none ∧
    entryEvents (runProgram FSM.init progC8).trace = ["A"] ∧
    (runProgram FSM.init progC8).fsm.gen = .suspended :=
  ⟨rfl, rfl, rfl⟩

/-- Claim C8, amended: before `start`, `send` with a non-None value
raises TypeError (the generator has not been started) and leaves the
machine completely unchanged, while `send(None)` behaves exactly like
`start()`. -/
theorem send_before_start_behavior (m : FSM) (n : Int)
    (hgen : m.gen = .created) :
    m.send (some n) =
      ⟨.error (.typeError "cant send non-None value to a just-started generator"), m, []⟩ ∧
    m.send none = m.start := by
  constructor
  · unfold FSM.send
    rw [hgen]
  · unfold FSM.send FSM.start
    rw [hgen]

/-- Claim C8, witness for the amended statement: a fresh machine. -/
theorem send_before_start_behavior_witness :
    FSM.init.send (some 7) =
      ⟨.error (.typeError "cant send non-None value to a just-started generator"),
       FSM.init, []⟩ ∧
    FSM.init.send none = FSM.init.start :=
  send_before_start_behavior FSM.init 7 rfl

/-- Claim C9: the three-state demo scenario fires the entry actions in
the order A, B, C, A; the final send(3) matches no guard and is a no-op
that leaves the cursor at 0 with the machine still suspended. -/
theorem demo_sequence_trace :
    entryEvents (runProgram FSM.init progDemo).trace = ["A", "B", "C", "A"] ∧
    (runProgram FSM.init progDemo).fsm.current_state = 0 ∧
    (runProgram FSM.init progDemo).err = none ∧
    (runProgram FSM.init progDemo).fsm.gen = .suspended :=
  ⟨rfl, rfl, rfl, rfl⟩

/-- Claim C3, witness: guards G1 false, G2 true, G3 true on state 0 —
only guard ids 101 and 102 are invoked, 103 never, and the cursor ends
at the destination of G2. -/
theorem send_first_match_wins_witness :
    (mC3.send (some 7)).fsm.current_state = 2 ∧
    guardEvents (mC3.send (some 7)).trace = [101, 102] :=
  send_first_match_wins mC3 (some 7) ⟨.fn0 "A", [tG1, tG2, tG3]⟩ [tG1] [tG3] tG2
    rfl rfl rfl
    (by intro t2 ht2; rw [List.mem_singleton] at ht2; subst ht2; rfl) rfl

/-- Claim C4, witness: a send whose input no guard accepts is a no-op. -/
theorem send_no_match_noop_witness :
    (mC4.send (some 5)).result = .ok () ∧
    (mC4.send (some 5)).fsm.current_state = 0 ∧
    (mC4.send (some 5)).fsm.states = [(0, ⟨.fn0 "A", [tG1]⟩)] ∧
    (mC4.send (some 5)).fsm.gen = .suspended ∧
    entryEvents (mC4.send (some 5)).trace = [] :=
  send_no_match_noop mC4 (some 5) ⟨.fn0 "A", [tG1]⟩ rfl rfl
    (by intro t ht; rw [List.mem_singleton] at ht; subst ht; rfl)

/-- Claim C5, witness: state 0 re-enters itself through a self-loop and
its entry action runs exactly once for that entry. -/
theorem send_entry_action_fires_once_witness :
    (mC5.send (some 1)).result = .ok () ∧
    (mC5.send (some 1)).fsm.current_state = 0 ∧
    (mC5.send (some 1)).fsm.gen = .suspended ∧
    entryEvents (mC5.send (some 1)).trace = ["A"] :=
  send_entry_action_fires_once mC5 (some 1) ⟨.fn0 "A", [tSelf]⟩ ⟨.fn0 "A", [tSelf]⟩
    [.guard 55] tSelf "A" rfl rfl rfl rfl rfl

/-- Claim C7: with the origin registered and the destination still
unregistered, `add_transition` succeeds (forward reference); after the
destination is registered, a `send` that satisfies the new guard (all
earlier guards of the origin rejecting) transitions into the destination
and runs its entry action. -/
theorem forward_reference_transition (m : FSM) (o d : Int) (gid : Nat)
    (g : Val → Bool) (marker : String) (v : Val) (st : StateRec)
    (hgen : m.gen = .suspended)
    (hcurrent : m.current_state = o)
    (hcur : lookupState m.states o = some st)
    (hd : containsState m.states d = false)
    (hrej : ∀ t ∈ st.transitions, guardRejects t.condition v = true)
    (hacc : g v = true) :
    ∃ m1 m2,
      m.add_transition (.int o) (.int d) (.fn1 gid g) = .ok m1 ∧
      m1.add_state (.int d) (.fn0 marker) = .ok m2 ∧
      (m2.send v).result = .ok () ∧
      (m2.send v).fsm.current_state = d ∧
      (m2.send v).fsm.gen = .suspended ∧
      entryEvents (m2.send v).trace = [marker] := by
  have hco : containsState m.states o = true := by
    unfold containsState
    rw [hcur]
    rfl
  refine ⟨{ m with states := appendTransition m.states o ⟨d, .fn1 gid g⟩ },
          { m with states := appendTransition m.states o ⟨d, .fn1 gid g⟩
              ++ [(d, ⟨.fn0 marker, []⟩)] }, ?_, ?_, ?_, ?_, ?_, ?_⟩
  case _ =>
    unfold FSM.add_transition
    simp only [Py.isInt, Py.isCallable, Py.toInt]
    rw [hco, if_neg (by decide), if_neg (by decide)]
  case _ =>
    have hcd : containsState (appendTransition m.states o ⟨d, .fn1 gid g⟩) d = false := by
      rw [containsState_appendTransition]
      exact hd
    unfold FSM.add_state
    simp only [Py.isInt, Py.isCallable, Py.toInt]
    rw [if_neg (by decide), if_neg (fun hh => Bool.noConfusion (hcd ▸ hh))]
  all_goals {
    have hlook : lookupState
        (appendTransition m.states o ⟨d, .fn1 gid g⟩ ++ [(d, ⟨.fn0 marker, []⟩)])
        m.current_state =
        some ⟨st.func, st.transitions ++ [⟨d, .fn1 gid g⟩]⟩ := by
      rw [hcurrent]
      exact lookupState_append_of_some _
        (lookupState_appendTransition_self _ hcur)
    have hfm := firstMatch_split v st.transitions [] ⟨d, .fn1 gid g⟩ hrej hacc
    have hdest2 : lookupState
        (appendTransition m.states o ⟨d, .fn1 gid g⟩ ++ [(d, ⟨.fn0 marker, []⟩)]) d =
        some ⟨.fn0 marker, []⟩ := by
      have h1 : lookupState (appendTransition m.states o ⟨d, .fn1 gid g⟩) d = none :=
        lookupState_appendTransition_none _ (lookup_eq_none_of_not_contains _ _ hd)
      rw [lookupState_append_of_none _ h1, lookupState_cons, if_pos rfl]
    have main := send_entry_action_fires_once
      { m with states := appendTransition m.states o ⟨d, .fn1 gid g⟩
          ++ [(d, ⟨.fn0 marker, []⟩)] }
      v ⟨st.func, st.transitions ++ [⟨d, .fn1 gid g⟩]⟩ ⟨.fn0 marker, []⟩ _
      ⟨d, .fn1 gid g⟩ marker hgen hlook hfm hdest2 rfl
    first
      | exact main.1
      | exact main.2.1
      | exact main.2.2.1
      | exact main.2.2.2
  }

/-- Claim C7, witness: on a started machine holding only state 0, the
forward reference 0 to 5 is accepted, state 5 is registered afterwards,
and the send enters state 5 running its entry action E. -/
theorem forward_reference_transition_witness :
    ∃ m1 m2,
      mC7.add_transition (.int 0) (.int 5) (.fn1 7 (fun _ => true)) = .ok m1 ∧
      m1.add_state (.int 5) (.fn0 "E") = .ok m2 ∧
      (m2.send (some 1)).result = .ok () ∧
      (m2.send (some 1)).fsm.current_state = 5 ∧
      (m2.send (some 1)).fsm.gen = .suspended ∧
      entryEvents (m2.send (some 1)).trace = ["E"] :=
  forward_reference_transition mC7 0 5 7 (fun _ => true) "E" (some 1) ⟨.fn0 "A", []⟩
    rfl rfl rfl rfl (by intro t ht; exact absurd ht (List.not_mem_nil t)) rfl

/-- Claim C10: once a `send` on a started machine has escaped with a
KeyError (dangling destination, or deleted current state), the generator
is closed and the machine is permanently unusable: every later `send` or
`start` raises StopIteration without touching the machine, even after
the missing state is registered through `add_state`. -/
theorem crashed_machine_unusable (m : FSM) (v : Val) (s : String)
    (hgen : m.gen = .suspended)
    (herr : (m.send v).result = .error (.keyError s)) :
    (m.send v).fsm.gen = .closed ∧
    (∀ v2, (m.send v).fsm.send v2 = ⟨.error .stopIteration, (m.send v).fsm, []⟩) ∧
    ((m.send v).fsm.start = ⟨.error .stopIteration, (m.send v).fsm, []⟩) ∧
    (∀ a b m2, (m.send v).fsm.add_state a b = .ok m2 →
      (∀ v2, m2.send v2 = ⟨.error .stopIteration, m2, []⟩) ∧
      m2.start = ⟨.error .stopIteration, m2, []⟩) := by
  have hclosed := send_error_closed m v _ hgen herr
  refine ⟨hclosed, fun v2 => send_closed _ v2 hclosed, start_closed _ hclosed, ?_⟩
  intro a b m2 hadd
  have hfields := add_state_ok_fields _ m2 a b hadd
  have hm2 : m2.gen = .closed := by rw [hfields.2, hclosed]
  exact ⟨fun v2 => send_closed _ v2 hm2, start_closed _ hm2⟩

/-- Claim C10, witness: the dangling-destination machine after its crash;
even registering state 5 afterwards leaves every send raising
StopIteration. -/
theorem crashed_machine_unusable_witness :
    (danglingFSM.send (some 1)).fsm.gen = .closed ∧
    (danglingFSM.send (some 1)).fsm.send (some 9) =
      ⟨.error .stopIteration, (danglingFSM.send (some 1)).fsm, []⟩ ∧
    (danglingFSM.send (some 1)).fsm.start =
      ⟨.error .stopIteration, (danglingFSM.send (some 1)).fsm, []⟩ ∧
    (danglingFSM.send (some 1)).fsm.add_state (.int 5) (.fn0 "Z") = .ok mAfterC10 ∧
    mAfterC10.send (some 2) = ⟨.error .stopIteration, mAfterC10, []⟩ := by
  have h := crashed_machine_unusable danglingFSM (some 1) "5" rfl rfl
  have hadd : (danglingFSM.send (some 1)).fsm.add_state (.int 5) (.fn0 "Z") =
      .ok mAfterC10 := rfl
  exact ⟨h.1, h.2.1 (some 9), h.2.2.1, hadd, (h.2.2.2 _ _ mAfterC10 hadd).1 (some 2)⟩
